import Mathlib

/-!
Verification of the housing-market-intelligence-platform deployment tooling.

The repository consists of three command-line utilities:
  * `cost_estimator.py` — pure per-service cost formulas over static pricing
    tables (embedded here over `ℚ`, since the Python floats denote exact
    decimal constants and every formula is +, ×, /);
  * `cleanup.py`      — a phased resource-teardown orchestrator;
  * `deploy.py`       — a phased deployment orchestrator.

The stateful orchestrators are embedded as pure functions over an explicit
provider-state record plus a failure oracle describing which provider calls
raise unexpected exceptions; every provider call made is recorded in a trace,
and terminal output is recorded as a list of tagged print lines mirroring
`print_info` / `print_success` / `print_warning` / `print_error`.
-/

namespace CostEstimator

/-- Environments accepted by the CLI (`choices` dev / staging / prod). -/
inductive Environment
  | dev
  | staging
  | prod
  deriving DecidableEq, Repr, Fintype

/-- Embedding of `class DataVolume(Enum)` in `cost_estimator.py`. -/
inductive DataVolume
  | low
  | medium
  | high
  deriving DecidableEq, Repr, Fintype

/-- One entry of `self.volume_config` (cost_estimator.py lines 57-79). -/
structure VolumeConfig where
  records_per_month : ℚ
  glue_dpu_hours : ℚ
  embedding_requests : ℚ
  rag_queries_per_day : ℚ
  storage_gb : ℚ
  deriving DecidableEq, Repr

/-- Embedding of `self.volume_config` table (cost_estimator.py lines 57-79). -/
def volume_config : DataVolume → VolumeConfig
  | .low => ⟨100000, 10, 100000, 100, 10⟩
  | .medium => ⟨1000000, 50, 1000000, 1000, 100⟩
  | .high => ⟨10000000, 200, 10000000, 10000, 1000⟩

/-- Embedding of `self.env_multipliers` table (cost_estimator.py lines 50-54). -/
def env_multipliers : Environment → ℚ
  | .dev => 1.0
  | .staging => 1.5
  | .prod => 3.0

/-- Embedding of `@dataclass ServiceCost` (cost_estimator.py lines 25-34).  The free-text
`description` and `notes` fields carry no behaviour and are omitted. -/
structure ServiceCost where
  service_name : String
  hourly_cost : ℚ
  daily_cost : ℚ
  monthly_cost : ℚ
  cost_components : List (String × ℚ)
  deriving DecidableEq, Repr

/-- Embedding of `_calculate_vpc_costs` (lines 98-113). -/
def calculate_vpc_costs : ServiceCost :=
  { service_name := "Amazon VPC"
    hourly_cost := 0.0
    daily_cost := 0.0
    monthly_cost := 0.0
    cost_components :=
      [("vpc", 0.0), ("subnets", 0.0), ("route_tables", 0.0),
       ("security_groups", 0.0)] }

/-- Embedding of `_calculate_nat_gateway_costs` (lines 115-141): the generic environment
multiplier is looked up, then overridden to `2.0` when the environment is
`prod` ("Production might have 2 NAT gateways for HA"). -/
def calculate_nat_gateway_costs (environment : Environment) : ServiceCost :=
  let hourly_rate : ℚ := 0.045
  let data_processed_per_hour_gb : ℚ := 0.5
  let data_rate : ℚ := 0.045
  let hourly := hourly_rate + data_processed_per_hour_gb * data_rate
  let daily := hourly * 24
  let monthly := daily * 30
  let multiplier :=
    if environment = .prod then 2.0 else env_multipliers environment
  { service_name := "NAT Gateway"
    hourly_cost := hourly * multiplier
    daily_cost := daily * multiplier
    monthly_cost := monthly * multiplier
    cost_components :=
      [("hourly_charge", 0.045 * multiplier),
       ("data_processing", data_processed_per_hour_gb * data_rate * multiplier)] }

/-- Embedding of `_calculate_s3_costs` (lines 143-170). -/
def calculate_s3_costs (data_volume : DataVolume) : ServiceCost :=
  let config := volume_config data_volume
  let storage_gb := config.storage_gb
  let storage_cost_per_gb : ℚ := 0.023
  let put_requests := config.records_per_month * 2
  let get_requests := config.records_per_month * 5
  let put_cost := put_requests / 1000 * 0.005
  let get_cost := get_requests / 1000 * 0.0004
  let monthly := storage_gb * storage_cost_per_gb + put_cost + get_cost
  { service_name := "Amazon S3"
    hourly_cost := monthly / 720
    daily_cost := monthly / 30
    monthly_cost := monthly
    cost_components :=
      [("storage", storage_gb * storage_cost_per_gb),
       ("put_requests", put_cost), ("get_requests", get_cost)] }

/-- Embedding of `_calculate_kms_costs` (lines 172-196). -/
def calculate_kms_costs (data_volume : DataVolume) : ServiceCost :=
  let config := volume_config data_volume
  let key_cost : ℚ := 1.0
  let num_keys : ℚ := 1
  let requests := config.records_per_month * 3
  let request_cost := requests / 10000 * 0.03
  let monthly := key_cost * num_keys + request_cost
  { service_name := "AWS KMS"
    hourly_cost := monthly / 720
    daily_cost := monthly / 30
    monthly_cost := monthly
    cost_components :=
      [("key_storage", key_cost * num_keys), ("requests", request_cost)] }

/-- Embedding of `_calculate_glue_costs` (lines 198-229). -/
def calculate_glue_costs (data_volume : DataVolume) : ServiceCost :=
  let config := volume_config data_volume
  let dpu_hour_cost : ℚ := 0.44
  let dpu_hours := config.glue_dpu_hours
  let crawler_dpu_hour_cost : ℚ := 0.44
  let crawler_hours : ℚ := 2
  let catalog_storage : ℚ := 0.0
  let monthly_etl := dpu_hours * dpu_hour_cost
  let monthly_crawler := crawler_hours * 30 * crawler_dpu_hour_cost
  let monthly := monthly_etl + monthly_crawler
  { service_name := "AWS Glue"
    hourly_cost := monthly / 720
    daily_cost := monthly / 30
    monthly_cost := monthly
    cost_components :=
      [("etl_jobs", monthly_etl), ("crawlers", monthly_crawler),
       ("data_catalog", catalog_storage)] }

/-- Embedding of `_calculate_appflow_costs` (lines 231-256). -/
def calculate_appflow_costs (data_volume : DataVolume) : ServiceCost :=
  let config := volume_config data_volume
  let flow_run_cost : ℚ := 0.001
  let runs_per_month : ℚ := 30 * 24
  let gb_processed := config.storage_gb / 10
  let processing_cost := gb_processed * 0.02
  let monthly := flow_run_cost * runs_per_month + processing_cost
  { service_name := "Amazon AppFlow"
    hourly_cost := monthly / 720
    daily_cost := monthly / 30
    monthly_cost := monthly
    cost_components :=
      [("flow_runs", flow_run_cost * runs_per_month),
       ("data_processing", processing_cost)] }

/-- One entry of the `instance_configs` table inside
`_calculate_opensearch_costs` (lines 261-265). -/
structure OpenSearchConfig where
  hourly : ℚ
  count : ℚ
  deriving DecidableEq, Repr

/-- Embedding of `instance_configs` table (lines 261-265); the instance-type strings carry
no behaviour and are omitted. -/
def opensearch_instance_configs : Environment → OpenSearchConfig
  | .dev => ⟨0.036, 1⟩
  | .staging => ⟨0.073, 2⟩
  | .prod => ⟨0.167, 3⟩

/-- Embedding of `_calculate_opensearch_costs` (lines 258-289). -/
def calculate_opensearch_costs (environment : Environment)
    (data_volume : DataVolume) : ServiceCost :=
  let config := opensearch_instance_configs environment
  let instance_monthly := config.hourly * 720 * config.count
  let storage_gb := (volume_config data_volume).storage_gb
  let ebs_cost := storage_gb * 0.135
  let monthly := instance_monthly + ebs_cost
  { service_name := "Amazon OpenSearch"
    hourly_cost := monthly / 720
    daily_cost := monthly / 30
    monthly_cost := monthly
    cost_components :=
      [("instances", instance_monthly), ("ebs_storage", ebs_cost)] }

/-- Embedding of `_calculate_lambda_costs` (lines 291-320). -/
def calculate_lambda_costs (data_volume : DataVolume) : ServiceCost :=
  let config := volume_config data_volume
  let requests_per_month := config.rag_queries_per_day * 30
  let avg_duration_ms : ℚ := 2000
  let memory_mb : ℚ := 1024
  let gb_seconds := requests_per_month * avg_duration_ms / 1000 * (memory_mb / 1024)
  let compute_cost := gb_seconds * 0.0000166667
  let request_cost := requests_per_month / 1000000 * 0.20
  let monthly := compute_cost + request_cost
  { service_name := "AWS Lambda"
    hourly_cost := monthly / 720
    daily_cost := monthly / 30
    monthly_cost := monthly
    cost_components :=
      [("compute", compute_cost), ("requests", request_cost)] }

/-- Embedding of `_calculate_api_gateway_costs` (lines 322-341). -/
def calculate_api_gateway_costs (data_volume : DataVolume) : ServiceCost :=
  let config := volume_config data_volume
  let requests_per_month := config.rag_queries_per_day * 30
  let api_cost := requests_per_month / 1000000 * 3.50
  { service_name := "Amazon API Gateway"
    hourly_cost := api_cost / 720
    daily_cost := api_cost / 30
    monthly_cost := api_cost
    cost_components := [("api_calls", api_cost)] }

/-- Embedding of `_calculate_bedrock_costs` (lines 343-375). -/
def calculate_bedrock_costs (data_volume : DataVolume) : ServiceCost :=
  let config := volume_config data_volume
  let embedding_requests := config.embedding_requests
  let embedding_tokens := embedding_requests * 500
  let embedding_cost := embedding_tokens / 1000 * 0.0001
  let queries_per_month := config.rag_queries_per_day * 30
  let input_tokens := queries_per_month * 3000
  let output_tokens := queries_per_month * 500
  let input_cost := input_tokens / 1000 * 0.003
  let output_cost := output_tokens / 1000 * 0.015
  let monthly := embedding_cost + input_cost + output_cost
  { service_name := "Amazon Bedrock"
    hourly_cost := monthly / 720
    daily_cost := monthly / 30
    monthly_cost := monthly
    cost_components :=
      [("embeddings", embedding_cost), ("claude_input", input_cost),
       ("claude_output", output_cost)] }

/-- Embedding of `_calculate_cloudwatch_costs` (lines 377-409). -/
def calculate_cloudwatch_costs : ServiceCost :=
  let log_ingestion_gb : ℚ := 5
  let log_storage_gb : ℚ := 20
  let ingestion_cost := log_ingestion_gb * 0.50
  let storage_cost := log_storage_gb * 0.03
  let custom_metrics : ℚ := 20
  let metrics_cost := custom_metrics * 0.30
  let alarms : ℚ := 5
  let alarm_cost := alarms * 0.10
  let monthly := ingestion_cost + storage_cost + metrics_cost + alarm_cost
  { service_name := "Amazon CloudWatch"
    hourly_cost := monthly / 720
    daily_cost := monthly / 30
    monthly_cost := monthly
    cost_components :=
      [("log_ingestion", ingestion_cost), ("log_storage", storage_cost),
       ("metrics", metrics_cost), ("alarms", alarm_cost)] }

/-- Embedding of `_calculate_secrets_manager_costs` (lines 411-432). -/
def calculate_secrets_manager_costs : ServiceCost :=
  let num_secrets : ℚ := 5
  let api_calls : ℚ := 10000
  let secret_cost := num_secrets * 0.40
  let api_cost := api_calls / 10000 * 0.05
  let monthly := secret_cost + api_cost
  { service_name := "AWS Secrets Manager"
    hourly_cost := monthly / 720
    daily_cost := monthly / 30
    monthly_cost := monthly
    cost_components :=
      [("secrets", secret_cost), ("api_calls", api_cost)] }

/-- Embedding of `calculate_all_costs` (lines 81-96): the insertion-ordered dict of
service key to `ServiceCost`, embedded as an association list in the same
order. -/
def calculate_all_costs (environment : Environment)
    (data_volume : DataVolume) : List (String × ServiceCost) :=
  [("vpc", calculate_vpc_costs),
   ("nat_gateway", calculate_nat_gateway_costs environment),
   ("s3", calculate_s3_costs data_volume),
   ("kms", calculate_kms_costs data_volume),
   ("glue", calculate_glue_costs data_volume),
   ("appflow", calculate_appflow_costs data_volume),
   ("opensearch", calculate_opensearch_costs environment data_volume),
   ("lambda", calculate_lambda_costs data_volume),
   ("api_gateway", calculate_api_gateway_costs data_volume),
   ("bedrock", calculate_bedrock_costs data_volume),
   ("cloudwatch", calculate_cloudwatch_costs),
   ("secrets_manager", calculate_secrets_manager_costs)]

/-- Embedding of `total_monthly` in `generate_report` (line 440). -/
def total_monthly (environment : Environment) (data_volume : DataVolume) : ℚ :=
  ((calculate_all_costs environment data_volume).map
    (fun p => p.2.monthly_cost)).sum

/-- The `categories` table of `generate_report` (lines 475-483). -/
def categories : List (String × List String) :=
  [("Compute", ["glue", "lambda", "opensearch"]),
   ("AI/ML", ["bedrock"]),
   ("Storage", ["s3"]),
   ("Networking", ["nat_gateway", "vpc"]),
   ("Integration", ["appflow", "api_gateway"]),
   ("Security", ["kms", "secrets_manager"]),
   ("Monitoring", ["cloudwatch"])]

/-- Embedding of `category_cost = sum(costs[s].monthly_cost for s in services if s in costs)`
(line 486). -/
def category_cost (environment : Environment) (data_volume : DataVolume)
    (services : List String) : ℚ :=
  (services.map (fun s =>
    match (calculate_all_costs environment data_volume).lookup s with
    | some c => c.monthly_cost
    | none => 0)).sum

/-- Embedding of `percentage = (category_cost / total_monthly * 100) if total_monthly > 0
else 0` (line 487). -/
def category_percentage (environment : Environment) (data_volume : DataVolume)
    (services : List String) : ℚ :=
  if total_monthly environment data_volume > 0 then
    category_cost environment data_volume services
      / total_monthly environment data_volume * 100
  else 0

/-- Sum of the seven category percentage shares printed by `generate_report`. -/
def percentage_sum (environment : Environment) (data_volume : DataVolume) : ℚ :=
  (categories.map
    (fun p => category_percentage environment data_volume p.2)).sum

end CostEstimator

namespace Cleanup

/-- Boolean test that the character list `p` occurs at the head of the second
list; helper for embedding Python `str.startswith`. -/
def isPreOf : List Char → List Char → Bool
  | [], _ => true
  | _ :: _, [] => false
  | a :: as, b :: bs => a == b && isPreOf as bs

/-- Boolean test that `needle` occurs contiguously somewhere in the second
list; helper for embedding Python `needle in haystack`. -/
def subOccurs (needle : List Char) : List Char → Bool
  | [] => isPreOf needle []
  | c :: rest => isPreOf needle (c :: rest) || subOccurs needle rest

/-- Python `s.startswith(p)`. -/
def strStartsWith (s p : String) : Bool := isPreOf p.toList s.toList

/-- Python `needle in hay` for strings (substring containment). -/
def strContainsSub (hay needle : String) : Bool :=
  subOccurs needle.toList hay.toList

/-- Embedding of `self.project_name`, the string "housing-market-intel" (cleanup.py line 64). -/
def project_name : String := "housing-market-intel"

/-- The per-invocation configuration of `ResourceCleaner` that the claims
depend on (the region and account id only feed into prints). -/
structure Config where
  environment : String
  deriving DecidableEq, Repr

/-- The naming filter `f"{self.project_name}-{self.environment}"` used both
for bucket discovery (line 152) and as `job_prefix` in the Glue phase
(line 224). -/
def Config.resource_filter (c : Config) : String :=
  project_name ++ "-" ++ c.environment

/-- Embedding of `db_name = f"{self.project_name}_{self.environment}_db"` (line 223). -/
def Config.db_name (c : Config) : String :=
  project_name ++ "_" ++ c.environment ++ "_db"

/-- Embedding of `self.stack_names` (lines 79-82), in its deletion order: the appflow
stack first, then the main stack. -/
def Config.stack_names (c : Config) : List String :=
  [project_name ++ "-" ++ c.environment ++ "-appflow",
   project_name ++ "-" ++ c.environment ++ "-main"]

/-- The three log-group name filters of `_discover_resources`
(lines 170-174). -/
def log_group_filters : List String :=
  ["/aws/glue/" ++ project_name,
   "/aws/lambda/" ++ project_name,
   "/aws/opensearch/" ++ project_name]

/-- Every provider call `ResourceCleaner` can issue.  `deleteStack` stands
for `delete_stack` together with its blocking `stack_delete_complete` wait;
`emptyBucket` is `bucket.object_versions.delete()`. -/
inductive AwsCall
  | listBuckets
  | describeLogGroups (filter : String)
  | describeStack (name : String)
  | getJobs
  | getCrawlers
  | getTables (db : String)
  | emptyBucket (bucket : String)
  | deleteJob (name : String)
  | stopCrawler (name : String)
  | deleteCrawler (name : String)
  | deleteTable (db : String) (table : String)
  | deleteDatabase (name : String)
  | deleteStack (name : String)
  | deleteLogGroup (name : String)
  | deleteBucket (name : String)
  deriving DecidableEq, Repr

/-- Whether a provider call mutates provider state (everything except the
listing/describe calls of the discovery side). -/
def AwsCall.isMutating : AwsCall → Bool
  | .listBuckets => false
  | .describeLogGroups _ => false
  | .describeStack _ => false
  | .getJobs => false
  | .getCrawlers => false
  | .getTables _ => false
  | _ => true

/-- Provider-resident resources visible to the cleaner.  A Glue database is
a name together with its tables. -/
structure AwsState where
  buckets : List String
  glueJobs : List String
  glueCrawlers : List String
  glueDatabases : List (String × List String)
  cfnStacks : List String
  logGroups : List String
  deriving DecidableEq, Repr

/-- Terminal output, tagged by which helper produced it
(`print_info` / `print_success` / `print_warning` / `print_error` or a bare
`print`). -/
inductive PrintLine
  | info (msg : String)
  | success (msg : String)
  | warning (msg : String)
  | error (msg : String)
  | plain (msg : String)
  deriving DecidableEq, Repr

/-- Embedding of `self.cleanup_summary` (lines 85-90). -/
structure Summary where
  stacks_deleted : List String
  buckets_emptied : List String
  log_groups_deleted : List String
  errors : List String
  deriving DecidableEq, Repr

/-- The initial, empty summary. -/
def Summary.init : Summary := ⟨[], [], [], []⟩

/-- Output of one step or phase: provider state and summary after it, the
provider calls it issued, and the lines it printed. -/
structure StepOut where
  state : AwsState
  summary : Summary
  trace : List AwsCall
  prints : List PrintLine
  deriving DecidableEq, Repr

/-- Sequential composition of a per-item step over a worklist, threading
state and summary and concatenating traces and prints — the shape of every
`for` loop in the cleanup phases whose iterations are independent. -/
def foldSteps (step : AwsState → Summary → String → StepOut) :
    AwsState → Summary → List String → StepOut
  | st, sm, [] => ⟨st, sm, [], []⟩
  | st, sm, x :: rest =>
    let o1 := step st sm x
    let o2 := foldSteps step o1.state o1.summary rest
    ⟨o2.state, o2.summary, o1.trace ++ o2.trace, o1.prints ++ o2.prints⟩

/-- The lists `_discover_resources` (lines 145-195) computes, later consumed
by the empty-buckets and orphaned-resources phases. -/
structure Discovered where
  buckets_to_delete : List String
  log_groups_to_delete : List String
  deriving DecidableEq, Repr

/-- Embedding of `_discover_resources` (lines 145-195): best-effort listings filtered by
the naming convention.  The method never consults `self.dry_run`; stack
statuses are printed from the describe call (the embedding does not track
status strings, so an existing stack prints as EXISTS). -/
def discover_resources (c : Config) (st : AwsState) :
    Discovered × List AwsCall × List PrintLine :=
  let bs := st.buckets.filter (fun b => strStartsWith b c.resource_filter)
  let lgs := log_group_filters.flatMap (fun p =>
    (st.logGroups.filter (fun lg => strStartsWith lg p)).filter
      (fun lg => strContainsSub lg c.environment))
  let stackPrints := c.stack_names.map (fun s =>
    if st.cfnStacks.contains s then PrintLine.plain ("  " ++ s ++ ": EXISTS")
    else PrintLine.plain ("  " ++ s ++ ": NOT FOUND"))
  (⟨bs, lgs⟩,
   [AwsCall.listBuckets] ++ log_group_filters.map AwsCall.describeLogGroups
     ++ c.stack_names.map AwsCall.describeStack,
   [PrintLine.info "Discovering S3 buckets..."]
     ++ bs.map (fun b => PrintLine.plain ("    - " ++ b))
     ++ [PrintLine.info "Discovering CloudWatch log groups...",
         PrintLine.info "Checking CloudFormation stacks..."]
     ++ stackPrints)

/-- One iteration of the `_empty_s3_buckets` loop (lines 200-218): dry-run
prints an intent and issues no call; a failure of the bulk version delete is
recorded in `errors` (fail-soft); success appends to `buckets_emptied`. -/
def empty_bucket_step (dry_run : Bool) (fails : AwsCall → Bool)
    (st : AwsState) (sm : Summary) (bucket_name : String) : StepOut :=
  let head := PrintLine.info ("Emptying bucket: " ++ bucket_name)
  if dry_run then
    ⟨st, sm, [],
     [head, .plain ("  [DRY RUN] Would empty bucket: " ++ bucket_name)]⟩
  else if fails (.emptyBucket bucket_name) then
    ⟨st,
     { sm with errors := sm.errors ++ ["Could not empty bucket " ++ bucket_name] },
     [.emptyBucket bucket_name],
     [head, .error ("  Could not empty bucket " ++ bucket_name)]⟩
  else
    ⟨st, { sm with buckets_emptied := sm.buckets_emptied ++ [bucket_name] },
     [.emptyBucket bucket_name],
     [head, .success ("  Emptied bucket: " ++ bucket_name)]⟩

/-- Result of a Glue deletion loop: the `completed` flag is false when an
exception aborted the remaining iterations (to be caught by the `except`
wrapping the whole loop). -/
structure LoopOut where
  state : AwsState
  trace : List AwsCall
  prints : List PrintLine
  completed : Bool
  deriving DecidableEq, Repr

/-- The `for job in response.get(Jobs, [])` loop of
`_cleanup_glue_resources` (lines 230-236): jobs matching `job_prefix` are
deleted one by one; an exception from `delete_job` aborts all remaining
iterations (the single `try` encloses the whole loop). -/
def delete_jobs_loop (dry_run : Bool) (jobFilter : String)
    (fails : AwsCall → Bool) : AwsState → List String → LoopOut
  | st, [] => ⟨st, [], [], true⟩
  | st, j :: rest =>
    if strStartsWith j jobFilter then
      if dry_run then
        let r := delete_jobs_loop dry_run jobFilter fails st rest
        ⟨r.state, r.trace,
         .plain ("  [DRY RUN] Would delete job: " ++ j) :: r.prints, r.completed⟩
      else if fails (.deleteJob j) then
        ⟨st, [.deleteJob j], [], false⟩
      else
        let st1 := { st with glueJobs := st.glueJobs.erase j }
        let r := delete_jobs_loop dry_run jobFilter fails st1 rest
        ⟨r.state, .deleteJob j :: r.trace,
         .success ("  Deleted job: " ++ j) :: r.prints, r.completed⟩
    else
      delete_jobs_loop dry_run jobFilter fails st rest

/-- The `for crawler in response.get(Crawlers, [])` loop (lines 244-256):
each matching crawler is stopped (a stop failure is swallowed by the inner
bare `except: pass`) and then deleted; a `delete_crawler` exception aborts
the remaining iterations. -/
def delete_crawlers_loop (dry_run : Bool) (jobFilter : String)
    (fails : AwsCall → Bool) : AwsState → List String → LoopOut
  | st, [] => ⟨st, [], [], true⟩
  | st, cr :: rest =>
    if strStartsWith cr jobFilter then
      if dry_run then
        let r := delete_crawlers_loop dry_run jobFilter fails st rest
        ⟨r.state, r.trace,
         .plain ("  [DRY RUN] Would delete crawler: " ++ cr) :: r.prints,
         r.completed⟩
      else if fails (.deleteCrawler cr) then
        ⟨st, [.stopCrawler cr, .deleteCrawler cr], [], false⟩
      else
        let st1 := { st with glueCrawlers := st.glueCrawlers.erase cr }
        let r := delete_crawlers_loop dry_run jobFilter fails st1 rest
        ⟨r.state, .stopCrawler cr :: .deleteCrawler cr :: r.trace,
         .success ("  Deleted crawler: " ++ cr) :: r.prints, r.completed⟩
    else
      delete_crawlers_loop dry_run jobFilter fails st rest

/-- Removes one table from a named Glue database. -/
def AwsState.removeTable (st : AwsState) (db t : String) : AwsState :=
  { st with glueDatabases :=
      st.glueDatabases.map (fun p => if p.1 == db then (p.1, p.2.erase t) else p) }

/-- Removes a Glue database entirely. -/
def AwsState.removeDatabase (st : AwsState) (db : String) : AwsState :=
  { st with glueDatabases := st.glueDatabases.filter (fun p => !(p.1 == db)) }

/-- The `for table in tables.get(TableList, [])` loop (lines 268-273):
deletes tables until one `delete_table` raises; the exception is swallowed
by the inner bare `except: pass`, so it only ends the table loop. -/
def delete_tables_loop (db : String) (fails : AwsCall → Bool) :
    AwsState → List String → AwsState × List AwsCall
  | st, [] => (st, [])
  | st, t :: rest =>
    if fails (.deleteTable db t) then (st, [.deleteTable db t])
    else
      let r := delete_tables_loop db fails (st.removeTable db t) rest
      (r.1, .deleteTable db t :: r.2)

/-- The Glue-database part of `_cleanup_glue_resources` (lines 260-282):
tables first, then the database; `EntityNotFoundException` from
`delete_database` is reported as informational, any other failure as a
warning — in neither case is anything recorded in the summary. -/
def delete_database_section (dry_run : Bool) (c : Config)
    (fails : AwsCall → Bool) (st : AwsState) :
    AwsState × List AwsCall × List PrintLine :=
  let name := c.db_name
  let head := PrintLine.info ("Deleting Glue database: " ++ name)
  if dry_run then
    (st, [], [head, .plain ("  [DRY RUN] Would delete database: " ++ name)])
  else
    match st.glueDatabases.lookup name with
    | none =>
      (st, [.getTables name, .deleteDatabase name],
       [head, .info ("  Database not found: " ++ name)])
    | some tables =>
      let r := delete_tables_loop name fails st tables
      if fails (.deleteDatabase name) then
        (r.1, .getTables name :: r.2 ++ [.deleteDatabase name],
         [head, .warning ("Could not delete database: " ++ name)])
      else
        (r.1.removeDatabase name,
         .getTables name :: r.2 ++ [.deleteDatabase name],
         [head, .success ("  Deleted database: " ++ name)])

/-- Embedding of `_cleanup_glue_resources` (lines 220-282).  The method never touches
`self.cleanup_summary`: a failure in any of its three sections is only
printed as a warning, so the summary is passed through unchanged. -/
def cleanup_glue_resources (dry_run : Bool) (c : Config)
    (fails : AwsCall → Bool) (st : AwsState) (sm : Summary) : StepOut :=
  let jf := c.resource_filter
  let jr := delete_jobs_loop dry_run jf fails st st.glueJobs
  let jobPrints := [PrintLine.info "Deleting Glue jobs..."] ++ jr.prints ++
    (if jr.completed then [] else [PrintLine.warning "Could not clean Glue jobs"])
  let cr := delete_crawlers_loop dry_run jf fails jr.state jr.state.glueCrawlers
  let crawlerPrints :=
    [PrintLine.info "Deleting Glue crawlers..."] ++ cr.prints ++
    (if cr.completed then []
     else [PrintLine.warning "Could not clean Glue crawlers"])
  let dbr := delete_database_section dry_run c fails cr.state
  ⟨dbr.1, sm,
   [AwsCall.getJobs] ++ jr.trace ++ [AwsCall.getCrawlers] ++ cr.trace ++ dbr.2.1,
   jobPrints ++ crawlerPrints ++ dbr.2.2⟩

/-- One iteration of the `_delete_stacks` loop (lines 287-319): a failed
describe (stack absent) is informational and skips to the next stack; a
delete/wait failure is recorded in `errors`; success appends to
`stacks_deleted`. -/
def delete_stack_step (dry_run : Bool) (fails : AwsCall → Bool)
    (st : AwsState) (sm : Summary) (stack_name : String) : StepOut :=
  let head := PrintLine.info ("Deleting stack: " ++ stack_name)
  if dry_run then
    ⟨st, sm, [],
     [head, .plain ("  [DRY RUN] Would delete stack: " ++ stack_name)]⟩
  else if !(st.cfnStacks.contains stack_name) then
    ⟨st, sm, [.describeStack stack_name],
     [head, .info ("  Stack not found: " ++ stack_name)]⟩
  else if fails (.deleteStack stack_name) then
    ⟨st,
     { sm with errors := sm.errors ++ ["Could not delete stack " ++ stack_name] },
     [.describeStack stack_name, .deleteStack stack_name],
     [head, .error ("  Could not delete stack " ++ stack_name)]⟩
  else
    ⟨{ st with cfnStacks := st.cfnStacks.erase stack_name },
     { sm with stacks_deleted := sm.stacks_deleted ++ [stack_name] },
     [.describeStack stack_name, .deleteStack stack_name],
     [head, .info ("  Waiting for stack deletion: " ++ stack_name),
      .success ("  Deleted stack: " ++ stack_name)]⟩

/-- One iteration of the log-group loop of `_cleanup_orphaned_resources`
(lines 326-335): failures are only warnings, success appends to
`log_groups_deleted`. -/
def delete_log_group_step (dry_run : Bool) (fails : AwsCall → Bool)
    (st : AwsState) (sm : Summary) (lg : String) : StepOut :=
  if dry_run then
    ⟨st, sm, [], [.plain ("  [DRY RUN] Would delete log group: " ++ lg)]⟩
  else if fails (.deleteLogGroup lg) then
    ⟨st, sm, [.deleteLogGroup lg],
     [.warning ("  Could not delete log group " ++ lg)]⟩
  else
    ⟨{ st with logGroups := st.logGroups.erase lg },
     { sm with log_groups_deleted := sm.log_groups_deleted ++ [lg] },
     [.deleteLogGroup lg], [.success ("  Deleted log group: " ++ lg)]⟩

/-- One iteration of the orphaned-bucket loop of
`_cleanup_orphaned_resources` (lines 339-349): `NoSuchBucket` is reported
as informational, any other failure as a warning; the summary is never
touched by this loop. -/
def delete_bucket_step (dry_run : Bool) (fails : AwsCall → Bool)
    (st : AwsState) (sm : Summary) (bucket_name : String) : StepOut :=
  if dry_run then
    ⟨st, sm, [],
     [.plain ("  [DRY RUN] Would delete bucket: " ++ bucket_name)]⟩
  else if !(st.buckets.contains bucket_name) then
    ⟨st, sm, [.deleteBucket bucket_name],
     [.info ("  Bucket already deleted: " ++ bucket_name)]⟩
  else if fails (.deleteBucket bucket_name) then
    ⟨st, sm, [.deleteBucket bucket_name],
     [.warning ("  Could not delete bucket " ++ bucket_name)]⟩
  else
    ⟨{ st with buckets := st.buckets.erase bucket_name }, sm,
     [.deleteBucket bucket_name],
     [.success ("  Deleted bucket: " ++ bucket_name)]⟩

/-- Everything `cleanup` (lines 116-139) runs inside its `try`: discovery,
bucket emptying, Glue cleanup, stack deletion, orphan cleanup.  Returns the
discovery result, the final provider state and summary, and the
concatenated call trace and prints of all phases in order. -/
structure RunOut where
  discovered : Discovered
  state : AwsState
  summary : Summary
  trace : List AwsCall
  prints : List PrintLine
  deriving DecidableEq, Repr

/-- The phase pipeline of `cleanup` (lines 116-139). -/
def run_cleanup_phases (dry_run : Bool) (c : Config)
    (fails : AwsCall → Bool) (st0 : AwsState) : RunOut :=
  let d := discover_resources c st0
  let disc := d.1
  let p1 := foldSteps (empty_bucket_step dry_run fails) st0 Summary.init
    disc.buckets_to_delete
  let p2 := cleanup_glue_resources dry_run c fails p1.state p1.summary
  let p3 := foldSteps (delete_stack_step dry_run fails) p2.state p2.summary
    c.stack_names
  let p4a := foldSteps (delete_log_group_step dry_run fails) p3.state
    p3.summary disc.log_groups_to_delete
  let p4b := foldSteps (delete_bucket_step dry_run fails) p4a.state
    p4a.summary disc.buckets_to_delete
  ⟨disc, p4b.state, p4b.summary,
   d.2.1 ++ p1.trace ++ p2.trace ++ p3.trace ++ p4a.trace ++ p4b.trace,
   d.2.2 ++ p1.prints ++ p2.prints ++ p3.prints
     ++ [.info "Deleting CloudWatch log groups..."] ++ p4a.prints
     ++ [.info "Cleaning orphaned S3 buckets..."] ++ p4b.prints⟩

/-- The condition under which `cleanup` (lines 102-114) shows the
interactive confirmation prompt: `if not force and not self.dry_run`. -/
def confirmation_shown (force dry_run : Bool) : Bool := !force && !dry_run

/-- Embedding of `cleanup` (lines 92-143): when the prompt is shown and the typed reply
differs from the environment name, the method returns before any phase runs;
otherwise the phase pipeline executes. -/
def cleanup (force dry_run : Bool) (c : Config) (typed : String)
    (fails : AwsCall → Bool) (st0 : AwsState) : RunOut :=
  if confirmation_shown force dry_run && !(typed == c.environment) then
    ⟨⟨[], []⟩, st0, Summary.init, [], [.warning "Cleanup cancelled"]⟩
  else
    run_cleanup_phases dry_run c fails st0

end Cleanup

namespace Deploy

/-- Outcome of one provider call inside the `try` of `deploy_stack`
(deploy.py lines 236-283): success, a `botocore` `ClientError` carrying its
message `str(e)`, or any other exception (which the `except ClientError`
clause does not catch). -/
inductive CallOutcome
  | ok
  | clientError (msg : String)
  | otherError (msg : String)
  deriving DecidableEq, Repr

/-- Provider behaviour for one `deploy_stack` invocation: whether the
describe call finds the stack, and the outcomes of `update_stack`,
`create_stack` and the completion waiter. -/
structure StackEnv where
  stack_exists : Bool
  update_outcome : CallOutcome
  create_outcome : CallOutcome
  wait_outcome : CallOutcome
  deriving DecidableEq, Repr

/-- The message text `deploy_stack` searches for inside `str(e)`
(deploy.py line 278). -/
def no_updates_text : String := "No updates are to be performed"

/-- Substring containment on the error message — Python
the Python containment test of "No updates are to be performed" inside `error_message`. -/
def mentions_no_updates (error_message : String) : Bool :=
  Cleanup.strContainsSub error_message no_updates_text

/-- The sequence of provider calls inside the `try` of `deploy_stack`:
update (stack exists) or create (stack absent), then the waiter.  The first
non-ok outcome wins, exactly as the first raised exception does. -/
def try_body (env : StackEnv) : CallOutcome :=
  match (if env.stack_exists then env.update_outcome else env.create_outcome) with
  | .ok => env.wait_outcome
  | .clientError m => .clientError m
  | .otherError m => .otherError m

/-- Embedding of `CloudFormationDeployer.deploy_stack` (deploy.py lines 213-283):
returns `True` on a completed create/update; a `ClientError` whose message
contains the no-updates text is classified as success, any other
`ClientError` as failure; a non-`ClientError` exception propagates
(`Except.error`). -/
def deploy_stack (env : StackEnv) : Except String Bool :=
  match try_body env with
  | .ok => .ok true
  | .clientError m => .ok (if mentions_no_updates m then true else false)
  | .otherError m => .error m

/-- The phases of `HousingMarketDeployer.deploy` (deploy.py lines 313-405),
in program order. -/
inductive DeployPhase
  | buildArtifacts
  | uploadArtifacts
  | deployMain
  | deployAppflow
  | postDeploy
  | summary
  deriving DecidableEq, Repr

/-- The phases that run when `main_success` is false: `deploy` prints an
error and returns right after Phase 3 (lines 372-374). -/
def phases_main_failed : List DeployPhase :=
  [.buildArtifacts, .uploadArtifacts, .deployMain]

/-- The phases that run once the main stack deployed: the AppFlow result is
bound to `appflow_success` (line 382) but never examined, so Phase 5 and the
summary always follow. -/
def phases_all : List DeployPhase :=
  [.buildArtifacts, .uploadArtifacts, .deployMain, .deployAppflow,
   .postDeploy, .summary]

/-- Embedding of `HousingMarketDeployer.deploy` (lines 313-405) reduced to its phase
control-flow: artifact building and uploads are modelled as always
succeeding (a failure there raises out of the whole method), the two
`deploy_stack` calls behave per the given environments, and an uncaught
exception from either is re-raised after the `except` clause prints. -/
def deploy (mainEnv appflowEnv : StackEnv) : Except String (List DeployPhase) :=
  match deploy_stack mainEnv with
  | .error m => .error m
  | .ok mainSuccess =>
    if !mainSuccess then .ok phases_main_failed
    else
      match deploy_stack appflowEnv with
      | .error m => .error m
      | .ok _appflowSuccess => .ok phases_all

end Deploy

namespace Deploy

/-- C1: when the stack exists and `update_stack` raises a `ClientError`,
`deploy_stack` returns `True` exactly when the error message contains
"No updates are to be performed" (content-based classification: the two
error cases differ only in the message string), and returns `False` for any
other `ClientError`; a completed update likewise returns `True`. -/
theorem deploy_stack_no_updates_is_success :
    ∀ (m : String) (c w : CallOutcome),
      deploy_stack ⟨true, .clientError m, c, w⟩ =
        .ok (mentions_no_updates m) ∧
      deploy_stack ⟨true, .ok, c, .ok⟩ = .ok true := by
  intro m c w
  constructor
  · cases h : mentions_no_updates m <;>
      simp [deploy_stack, try_body, h]
  · rfl

/-- C8: the boolean result of the AppFlow stack deployment is ignored —
Phase 5 and the summary run whenever the main stack succeeded, whatever the
AppFlow outcome was; a failed main-stack deployment ends the run before the
AppFlow phase. -/
theorem deploy_ignores_appflow_result :
    ∀ (mainEnv appflowEnv : StackEnv),
      (deploy_stack mainEnv = .ok true →
        ∀ b : Bool, deploy_stack appflowEnv = .ok b →
          deploy mainEnv appflowEnv = .ok phases_all) ∧
      (deploy_stack mainEnv = .ok false →
        deploy mainEnv appflowEnv = .ok phases_main_failed) ∧
      DeployPhase.postDeploy ∈ phases_all ∧
      DeployPhase.summary ∈ phases_all ∧
      DeployPhase.deployAppflow ∉ phases_main_failed ∧
      DeployPhase.postDeploy ∉ phases_main_failed ∧
      DeployPhase.summary ∉ phases_main_failed := by
  intro mainEnv appflowEnv
  refine ⟨fun h b hb => ?_, fun h => ?_, by decide, by decide, by decide,
    by decide, by decide⟩
  · simp [deploy, h, hb]
  · simp [deploy, h]

/-- Witness for C8 at a concrete pair of provider behaviours: the main
stack updates cleanly, the AppFlow update fails with an unrelated
`ClientError`, and the full phase list still runs. -/
theorem deploy_ignores_appflow_result_witness :
    deploy (⟨true, .ok, .ok, .ok⟩ : StackEnv)
        ⟨true, .clientError "boom", .ok, .ok⟩ = .ok phases_all := by
  exact (deploy_ignores_appflow_result ⟨true, .ok, .ok, .ok⟩
    ⟨true, .clientError "boom", .ok, .ok⟩).1 rfl false rfl

end Deploy

namespace Cleanup

/-- C2: deleting a stack, bucket, or catalog database that does not exist
is a no-op: the state and summary (in particular the error list) are
unchanged, only informational lines are printed, and the surrounding fold
continues with the remaining resources. -/
theorem absent_resource_deletion_is_noop :
    ∀ (fails : AwsCall → Bool) (st : AwsState) (sm : Summary)
      (name : String) (c : Config),
      (st.cfnStacks.contains name = false →
        delete_stack_step false fails st sm name =
          ⟨st, sm, [.describeStack name],
           [.info ("Deleting stack: " ++ name),
            .info ("  Stack not found: " ++ name)]⟩) ∧
      (st.buckets.contains name = false →
        delete_bucket_step false fails st sm name =
          ⟨st, sm, [.deleteBucket name],
           [.info ("  Bucket already deleted: " ++ name)]⟩) ∧
      (st.glueDatabases.lookup c.db_name = none →
        delete_database_section false c fails st =
          (st, [.getTables c.db_name, .deleteDatabase c.db_name],
           [.info ("Deleting Glue database: " ++ c.db_name),
            .info ("  Database not found: " ++ c.db_name)])) ∧
      (st.cfnStacks.contains name = false → ∀ rest,
        (foldSteps (delete_stack_step false fails) st sm (name :: rest)).summary =
          (foldSteps (delete_stack_step false fails) st sm rest).summary) := by
  intro fails st sm name c
  refine ⟨fun h => ?_, fun h => ?_, fun h => ?_, fun h rest => ?_⟩
  · have h' : name ∉ st.cfnStacks := by simpa using h
    simp [delete_stack_step, h']
  · have h' : name ∉ st.buckets := by simpa using h
    simp [delete_bucket_step, h']
  · simp [delete_database_section, h]
  · have h' : name ∉ st.cfnStacks := by simpa using h
    simp [foldSteps, delete_stack_step, h']

/-- Witness for C2 on a concrete empty provider state: none of the
resources exist and all three deletions are no-ops. -/
theorem absent_resource_deletion_is_noop_witness :
    delete_stack_step false (fun _ => false) ⟨[], [], [], [], [], []⟩
        Summary.init "s" =
      ⟨⟨[], [], [], [], [], []⟩, Summary.init, [.describeStack "s"],
       [.info ("Deleting stack: " ++ "s"), .info ("  Stack not found: " ++ "s")]⟩ := by
  exact (absent_resource_deletion_is_noop (fun _ => false)
    ⟨[], [], [], [], [], []⟩ Summary.init "s" ⟨"dev"⟩).1 rfl

/-- C9: in the Glue phase, an exception while deleting one job (or one
crawler) aborts the processing of all remaining entries of that loop, and
the whole Glue phase passes the summary — in particular its error list —
through unchanged, whatever happens. -/
theorem glue_failure_aborts_loop_without_summary_error :
    ∀ (c : Config) (dry_run : Bool) (fails : AwsCall → Bool)
      (jf j : String) (st : AwsState) (sm : Summary) (rest : List String),
      (strStartsWith j jf = true → fails (.deleteJob j) = true →
        delete_jobs_loop false jf fails st (j :: rest) =
          ⟨st, [.deleteJob j], [], false⟩) ∧
      (strStartsWith j jf = true → fails (.deleteCrawler j) = true →
        delete_crawlers_loop false jf fails st (j :: rest) =
          ⟨st, [.stopCrawler j, .deleteCrawler j], [], false⟩) ∧
      (cleanup_glue_resources dry_run c fails st sm).summary = sm := by
  intro c dry_run fails jf j st sm rest
  refine ⟨fun h1 h2 => ?_, fun h1 h2 => ?_, rfl⟩
  · simp [delete_jobs_loop, h1, h2]
  · simp [delete_crawlers_loop, h1, h2]

/-- Witness for C9: with a prefix-matching job name and an oracle that
fails every delete, the loop stops at the first job. -/
theorem glue_failure_aborts_loop_witness :
    delete_jobs_loop false "a" (fun _ => true) ⟨[], [], [], [], [], []⟩
        ["ab", "ac"] =
      ⟨⟨[], [], [], [], [], []⟩, [.deleteJob "ab"], [], false⟩ := by
  exact (glue_failure_aborts_loop_without_summary_error ⟨"dev"⟩ false
    (fun _ => true) "a" "ab" ⟨[], [], [], [], [], []⟩ Summary.init ["ac"]).1
    rfl rfl

/-- C7 as stated is false: with the force flag clear but dry-run set,
`cleanup` shows no confirmation prompt (`if not force and not self.dry_run`)
and proceeds straight into the phases even though the typed reply (here the
empty string) is not the environment name. -/
theorem confirmation_not_shown_on_dry_run :
    confirmation_shown false true = false ∧
    cleanup false true ⟨"dev"⟩ "" (fun _ => false) ⟨[], [], [], [], [], []⟩ =
      run_cleanup_phases true ⟨"dev"⟩ (fun _ => false)
        ⟨[], [], [], [], [], []⟩ := by
  exact ⟨rfl, rfl⟩

/-- C7 amended: when neither force nor dry-run is set, the confirmation
prompt is shown, and a typed reply different from the environment name makes
`cleanup` return before any phase: no provider call, no summary entry, and
the provider state unchanged. -/
theorem confirmation_gate_blocks_on_mismatch :
    ∀ (c : Config) (typed : String) (fails : AwsCall → Bool) (st : AwsState),
      confirmation_shown false false = true ∧
      (typed ≠ c.environment →
        cleanup false false c typed fails st =
          ⟨⟨[], []⟩, st, Summary.init, [], [.warning "Cleanup cancelled"]⟩) := by
  intro c typed fails st
  refine ⟨rfl, fun h => ?_⟩
  simp [cleanup, confirmation_shown, h]

/-- Witness for the amended C7 at concrete inputs: replying "prod" to a
"dev" teardown cancels it with the state untouched. -/
theorem confirmation_gate_blocks_on_mismatch_witness :
    cleanup false false ⟨"dev"⟩ "prod" (fun _ => true)
        ⟨["b"], [], [], [], ["x"], []⟩ =
      ⟨⟨[], []⟩, ⟨["b"], [], [], [], ["x"], []⟩, Summary.init, [],
       [.warning "Cleanup cancelled"]⟩ := by
  exact (confirmation_gate_blocks_on_mismatch ⟨"dev"⟩ "prod" (fun _ => true)
    ⟨["b"], [], [], [], ["x"], []⟩).2 (by decide)

end Cleanup

namespace Cleanup

/-- A folded loop whose step never issues a provider call issues none. -/
theorem foldSteps_trace_nil (step : AwsState → Summary → String → StepOut)
    (h : ∀ st sm x, (step st sm x).trace = []) :
    ∀ st sm l, (foldSteps step st sm l).trace = [] := by
  intro st sm l
  induction l generalizing st sm with
  | nil => rfl
  | cons x rest ih => simp [foldSteps, h, ih]

/-- The dry-run jobs loop issues no provider call. -/
theorem delete_jobs_loop_dry_trace (jf : String) (fails : AwsCall → Bool) :
    ∀ st l, (delete_jobs_loop true jf fails st l).trace = [] := by
  intro st l
  induction l generalizing st with
  | nil => rfl
  | cons j rest ih =>
    cases h : strStartsWith j jf <;> simp [delete_jobs_loop, h, ih]

/-- The dry-run crawlers loop issues no provider call. -/
theorem delete_crawlers_loop_dry_trace (jf : String) (fails : AwsCall → Bool) :
    ∀ st l, (delete_crawlers_loop true jf fails st l).trace = [] := by
  intro st l
  induction l generalizing st with
  | nil => rfl
  | cons cr rest ih =>
    cases h : strStartsWith cr jf <;> simp [delete_crawlers_loop, h, ih]

/-- A list is a prefix of itself followed by five further chunks (the shape
of the phase pipeline concatenated trace). -/
theorem isPre_of_five (a b c d e f : List AwsCall) :
    List.IsPrefix a (a ++ b ++ c ++ d ++ e ++ f) :=
  ((((List.prefix_append a b).trans (List.prefix_append _ c)).trans
    (List.prefix_append _ d)).trans (List.prefix_append _ e)).trans
    (List.prefix_append _ f)

/-- C3: a dry-run teardown performs zero mutating provider calls, its
discovery output is identical to a live run on the same provider state, and
in both modes the run starts with exactly the listing
calls. -/
theorem dry_run_is_pure_discovery :
    ∀ (c : Config) (fails : AwsCall → Bool) (st : AwsState),
      ((run_cleanup_phases true c fails st).trace.all
        (fun k => !k.isMutating)) = true ∧
      (run_cleanup_phases true c fails st).discovered =
        (run_cleanup_phases false c fails st).discovered ∧
      List.IsPrefix (discover_resources c st).2.1
        (run_cleanup_phases true c fails st).trace ∧
      List.IsPrefix (discover_resources c st).2.1
        (run_cleanup_phases false c fails st).trace := by
  intro c fails st
  refine ⟨?_, rfl, ?_, ?_⟩
  · simp [run_cleanup_phases, cleanup_glue_resources,
      delete_database_section, discover_resources,
      foldSteps_trace_nil (empty_bucket_step true fails)
        (fun st sm x => rfl),
      foldSteps_trace_nil (delete_stack_step true fails)
        (fun st sm x => rfl),
      foldSteps_trace_nil (delete_log_group_step true fails)
        (fun st sm x => rfl),
      foldSteps_trace_nil (delete_bucket_step true fails)
        (fun st sm x => rfl),
      delete_jobs_loop_dry_trace, delete_crawlers_loop_dry_trace,
      AwsCall.isMutating, log_group_filters, Config.stack_names]
  · simp only [run_cleanup_phases]
    exact isPre_of_five _ _ _ _ _ _
  · simp only [run_cleanup_phases]
    exact isPre_of_five _ _ _ _ _ _

end Cleanup

namespace CostEstimator

/-- C4: the cost computation is a pure function of (environment, volume) —
two runs on the same inputs coincide — and for every combination the seven
category percentage shares of `generate_report` sum to exactly 100 whenever
the total monthly cost is nonzero (exact rational arithmetic; the Python
floats carry the same decimal constants). -/
theorem cost_deterministic_and_percentages_sum_to_100 :
    ∀ (e : Environment) (v : DataVolume),
      calculate_all_costs e v = calculate_all_costs e v ∧
      (total_monthly e v ≠ 0 → percentage_sum e v = 100) := by
  intro e v
  refine ⟨rfl, fun _ => ?_⟩
  cases e <;> cases v <;>
    · simp only [percentage_sum, category_percentage, category_cost,
        total_monthly, calculate_all_costs, calculate_vpc_costs,
        calculate_nat_gateway_costs, calculate_s3_costs, calculate_kms_costs,
        calculate_glue_costs, calculate_appflow_costs,
        calculate_opensearch_costs, calculate_lambda_costs,
        calculate_api_gateway_costs, calculate_bedrock_costs,
        calculate_cloudwatch_costs, calculate_secrets_manager_costs,
        volume_config, env_multipliers, opensearch_instance_configs,
        categories, List.lookup, List.map, List.sum, List.foldr,
        reduceCtorEq, reduceIte, String.reduceBEq]
      norm_num

/-- Witness for C4 at environment prod, volume high: the total is nonzero
and the percentage shares sum to 100. -/
theorem cost_percentages_sum_witness :
    total_monthly .prod .high ≠ 0 ∧ percentage_sum .prod .high = 100 := by
  have h : total_monthly .prod .high ≠ 0 := by
    simp only [total_monthly, calculate_all_costs, calculate_vpc_costs,
      calculate_nat_gateway_costs, calculate_s3_costs, calculate_kms_costs,
      calculate_glue_costs, calculate_appflow_costs,
      calculate_opensearch_costs, calculate_lambda_costs,
      calculate_api_gateway_costs, calculate_bedrock_costs,
      calculate_cloudwatch_costs, calculate_secrets_manager_costs,
      volume_config, env_multipliers, opensearch_instance_configs,
      List.map, List.sum, List.foldr, reduceCtorEq, reduceIte]
    norm_num
  exact ⟨h, (cost_deterministic_and_percentages_sum_to_100 .prod .high).2 h⟩

/-- C5: for the production environment the NAT-gateway component is scaled
by exactly 2.0 in all three totals, while the generic multiplier table says
3.0 for prod and applying it would give a different monthly cost. -/
theorem nat_gateway_prod_multiplier_is_two :
    ∀ v : DataVolume,
      (calculate_all_costs .prod v).lookup "nat_gateway" =
        some (calculate_nat_gateway_costs .prod) ∧
      (calculate_nat_gateway_costs .prod).hourly_cost =
        (0.045 + 0.5 * 0.045) * 2.0 ∧
      (calculate_nat_gateway_costs .prod).daily_cost =
        (0.045 + 0.5 * 0.045) * 24 * 2.0 ∧
      (calculate_nat_gateway_costs .prod).monthly_cost =
        (0.045 + 0.5 * 0.045) * 24 * 30 * 2.0 ∧
      env_multipliers .prod = 3.0 ∧
      (calculate_nat_gateway_costs .prod).monthly_cost ≠
        (0.045 + 0.5 * 0.045) * 24 * 30 * env_multipliers .prod := by
  intro v
  refine ⟨?_, ?_, ?_, ?_, rfl, ?_⟩
  · simp [calculate_all_costs, List.lookup, String.reduceBEq]
  · norm_num [calculate_nat_gateway_costs, env_multipliers]
  · norm_num [calculate_nat_gateway_costs, env_multipliers]
  · norm_num [calculate_nat_gateway_costs, env_multipliers]
  · norm_num [calculate_nat_gateway_costs, env_multipliers]

/-- C6 as stated is false: the production NAT-gateway monthly cost does
equal (0.045 + 0.5×0.045) × 24 × 30 × 2.0, but that product is 97.20, not
48.60 — the two parts of the claim cannot both hold. -/
theorem nat_gateway_monthly_not_48_60 :
    ¬ ((calculate_nat_gateway_costs .prod).monthly_cost =
        (0.045 + 0.5 * 0.045) * 24 * 30 * 2.0 ∧
      (0.045 + 0.5 * 0.045) * 24 * 30 * 2.0 = (48.60 : ℚ)) := by
  intro h
  have h2 := h.2
  norm_num at h2

/-- C6 amended: the production NAT-gateway monthly cost equals
(0.045 + 0.5×0.045) × 24 × 30 × 2.0, and that value is $97.20 (the 48.60
figure is the same formula without the 2.0 high-availability factor). -/
theorem nat_gateway_monthly_is_97_20 :
    (calculate_nat_gateway_costs .prod).monthly_cost =
      (0.045 + 0.5 * 0.045) * 24 * 30 * 2.0 ∧
    (0.045 + 0.5 * 0.045) * 24 * 30 * (2.0 : ℚ) = 97.2 := by
  constructor
  · norm_num [calculate_nat_gateway_costs, env_multipliers]
  · norm_num

/-- C10: every `ServiceCost` produced by `calculate_all_costs` satisfies
daily = 24 × hourly and monthly = 30 × daily exactly, for every environment
and volume tier (in exact rational arithmetic). -/
theorem daily_and_monthly_exactly_proportional :
    ∀ (e : Environment) (v : DataVolume),
      List.Forall
        (fun p => p.2.daily_cost = 24 * p.2.hourly_cost ∧
          p.2.monthly_cost = 30 * p.2.daily_cost)
        (calculate_all_costs e v) := by
  intro e v
  cases e <;> cases v <;>
    · simp only [calculate_all_costs, List.Forall, calculate_vpc_costs,
        calculate_nat_gateway_costs, calculate_s3_costs, calculate_kms_costs,
        calculate_glue_costs, calculate_appflow_costs,
        calculate_opensearch_costs, calculate_lambda_costs,
        calculate_api_gateway_costs, calculate_bedrock_costs,
        calculate_cloudwatch_costs, calculate_secrets_manager_costs,
        volume_config, env_multipliers, opensearch_instance_configs,
        reduceCtorEq, reduceIte]
      norm_num

end CostEstimator
